import Mathlib

/-
Verification of src/Examples/SecRandomCopyBytes.py.

The script imports ctypes and os, defines one function, get_random_bytes,
and at top level calls it with n = 8 and prints a label together with the
hexadecimal encoding of the result.  The function allocates a
zero-initialised ctypes array of n unsigned bytes (line 5), then on
line 6 evaluates ctypes.util.find_library("Security"), loads the library
and calls SecRandomCopyBytes(None, n, buf); a non-zero status raises
ValueError("Failed to generate random bytes") (line 8), otherwise the
function returns bytes(buf) (line 9).

Line 6 never gets past its first attribute lookup: the script imports
ctypes but never ctypes.util, and importing ctypes does not bind the
submodule util, so ctypes.util raises
AttributeError("module ctypes has no attribute util") before
find_library, LoadLibrary or the platform primitive is reached.  Only
line 5 runs before that, and for a negative n it raises its own
ValueError("Array length must be >= 0") first.  The embedding models
both error paths exactly.  It stays parameterised by the platform
primitive the source intends to call, so the theorems can quantify over
every possible platform behaviour and show none of it is ever consulted;
it threads an arbitrary global state through the function (the body
declares no global and assigns only local names) and records the
arguments of every platform invocation in a trace.
-/

namespace Randomizer

/-- A byte: the value of a ctypes c_ubyte, an unsigned 8-bit integer. -/
abbrev Byte := Fin 256

/-- Contents of a caller-allocated ctypes array of c_ubyte values. -/
abbrev Buffer := List Byte

/-- Errors the Python function can raise, told apart by their origin:
the ValueError raised by ctypes when an array type is constructed with
a negative length (line 5); the AttributeError raised on line 6 because
the script imports ctypes but never ctypes.util, so the attribute
lookup ctypes.util fails before any library is loaded; and the
ValueError("Failed to generate random bytes") that line 8 would raise
on a non-zero platform status.  The specification calls the last one
RandomGenerationError. -/
inductive PyError where
  | negativeArrayLength : PyError
  | attributeError : PyError
  | randomGenerationError : PyError
deriving DecidableEq

/-- The platform primitive SecRandomCopyBytes as the ctypes call on
line 6 intends to use it: it would receive the reserved first argument,
the requested byte count and the buffer contents, and would yield an
integer status code together with the buffer contents after the call. -/
abbrev PlatformPrim := Option Unit → Int → Buffer → Int × Buffer

/-- Record of one invocation of the platform primitive: the three
arguments passed, in order. -/
structure CallRecord where
  reserved : Option Unit
  count : Int
  buffer : Buffer
deriving DecidableEq

/-- Shallow embedding of get_random_bytes
(src/Examples/SecRandomCopyBytes.py, lines 4 to 9), parameterised by
the platform primitive and threaded through an arbitrary global state
g.  The first component carries the Python outcome — the returned byte
sequence or the raised error — together with the trace of platform
invocations performed by this call; the second component is the global
state after the call. -/
def get_random_bytes {σ : Type} (_prim : PlatformPrim) (n : Int) (g : σ) :
    (Except PyError Buffer × List CallRecord) × σ :=
  -- buf = (ctypes.c_ubyte * n)() ; ctypes rejects a negative array
  -- length with a ValueError, otherwise the array is zero-initialised
  if n < 0 then ((Except.error PyError.negativeArrayLength, []), g)
  else
    -- line 6 evaluates ctypes.util first; the script imports only
    -- ctypes and os, and importing ctypes does not bind the submodule
    -- util, so the lookup raises AttributeError before find_library,
    -- LoadLibrary or SecRandomCopyBytes is reached: the platform
    -- primitive is never invoked and the trace stays empty
    ((Except.error PyError.attributeError, []), g)

/-- The Python outcome of one call of get_random_bytes: the returned
byte sequence or the raised error. -/
def runRandomBytes (prim : PlatformPrim) (n : Int) : Except PyError Buffer :=
  ((get_random_bytes prim n ()).1).1

/-- The platform invocations performed by one call of get_random_bytes. -/
def callTrace (prim : PlatformPrim) (n : Int) : List CallRecord :=
  ((get_random_bytes prim n ()).1).2

/-- The lowercase hexadecimal digit for a value below sixteen, as used
by the Python method bytes.hex(). -/
def hexDigit (k : Nat) : Char :=
  if k < 10 then Char.ofNat (48 + k) else Char.ofNat (87 + k)

/-- The Python method bytes.hex(): two lowercase hexadecimal characters
per byte, high nibble first. -/
def bytesHex (bs : Buffer) : List Char :=
  (bs.map (fun b => [hexDigit (b.val / 16), hexDigit (b.val % 16)])).flatten

/-- Python print with two arguments joins them with a single space. -/
def printLine (a b : String) : String := a ++ " " ++ b

/-- The single line line 12 would print on success. -/
def successLine (bs : Buffer) : String :=
  printLine "Random 64-bit number: " (String.mk (bytesHex bs))

/-- Top level of the script (lines 11 and 12): call get_random_bytes
with n = 8 and print the label followed by the hexadecimal encoding of
the result; a raised error propagates to the top level and nothing is
printed. -/
def programOutput (prim : PlatformPrim) : Except PyError String :=
  match runRandomBytes prim 8 with
  | Except.error e => Except.error e
  | Except.ok bs => Except.ok (successLine bs)

/-- Test platform that would report success and fill the buffer with
the byte 0xAB, were it ever invoked. -/
def okPrim : PlatformPrim := fun _ _ b => (0, b.map (fun _ => (171 : Byte)))

/-- Test platform that would report the failure status 1 and leave the
buffer untouched, were it ever invoked. -/
def failPrim : PlatformPrim := fun _ _ b => (1, b)

/-- Evaluation of a call with a non-negative count: the negative-length
check passes and line 6 raises AttributeError. -/
lemma runRandomBytes_nonneg_eq (prim : PlatformPrim) (n : Int) (hn : 0 ≤ n) :
    runRandomBytes prim n = Except.error PyError.attributeError := by
  simp [runRandomBytes, get_random_bytes, not_lt.mpr hn]

/-- A call with a non-negative count performs no platform invocation:
AttributeError is raised before the primitive is reached. -/
lemma callTrace_nonneg_eq (prim : PlatformPrim) (n : Int) (hn : 0 ≤ n) :
    callTrace prim n = [] := by
  simp [callTrace, get_random_bytes, not_lt.mpr hn]

/-- C1, a code bug: the success path the claim describes is unreachable.
For every platform behaviour and every non-negative n, get_random_bytes
raises AttributeError at line 6 and never returns a byte sequence of
any length. -/
theorem get_random_bytes_success_unreachable (prim : PlatformPrim) (n : Int)
    (hn : 0 ≤ n) :
    runRandomBytes prim n = Except.error PyError.attributeError ∧
    ∀ bs : Buffer, runRandomBytes prim n ≠ Except.ok bs := by
  refine ⟨runRandomBytes_nonneg_eq prim n hn, fun bs => ?_⟩
  rw [runRandomBytes_nonneg_eq prim n hn]
  simp

/-- Witness for the C1 theorem at the test platform with n = 3. -/
theorem get_random_bytes_success_unreachable_witness :
    runRandomBytes okPrim 3 = Except.error PyError.attributeError ∧
    ∀ bs : Buffer, runRandomBytes okPrim 3 ≠ Except.ok bs :=
  get_random_bytes_success_unreachable okPrim 3 (by decide)

/-- C2, a code bug: no platform status ever exists.  For every platform
behaviour and every non-negative n the function raises AttributeError;
it never raises the RandomGenerationError of line 8 — even under a
platform that would report a non-zero status — and never returns a
buffer — even under a platform that would report zero. -/
theorem get_random_bytes_no_status_dichotomy (prim : PlatformPrim) (n : Int)
    (hn : 0 ≤ n) :
    runRandomBytes prim n = Except.error PyError.attributeError ∧
    runRandomBytes prim n ≠ Except.error PyError.randomGenerationError ∧
    ∀ bs : Buffer, runRandomBytes prim n ≠ Except.ok bs := by
  refine ⟨runRandomBytes_nonneg_eq prim n hn, ?_, fun bs => ?_⟩ <;>
    rw [runRandomBytes_nonneg_eq prim n hn] <;> simp

/-- Witness for the C2 theorem at the failing test platform with n = 2:
even though this platform would report status 1, no
RandomGenerationError is raised. -/
theorem get_random_bytes_no_status_dichotomy_witness :
    runRandomBytes failPrim 2 = Except.error PyError.attributeError ∧
    runRandomBytes failPrim 2 ≠ Except.error PyError.randomGenerationError ∧
    ∀ bs : Buffer, runRandomBytes failPrim 2 ≠ Except.ok bs :=
  get_random_bytes_no_status_dichotomy failPrim 2 (by decide)

/-- C3, a code bug: the platform call never happens, so no non-zero
status can ever be observed.  For every platform behaviour and every
non-negative n the call trace is empty, the error surfaced is
AttributeError rather than RandomGenerationError, and no buffer —
partial, zeroed or otherwise — is ever returned. -/
theorem get_random_bytes_no_platform_call (prim : PlatformPrim) (n : Int)
    (hn : 0 ≤ n) :
    callTrace prim n = [] ∧
    runRandomBytes prim n ≠ Except.error PyError.randomGenerationError ∧
    ∀ bs : Buffer, runRandomBytes prim n ≠ Except.ok bs := by
  refine ⟨callTrace_nonneg_eq prim n hn, ?_, fun bs => ?_⟩ <;>
    rw [runRandomBytes_nonneg_eq prim n hn] <;> simp

/-- Witness for the C3 theorem at the failing test platform with n = 5. -/
theorem get_random_bytes_no_platform_call_witness :
    callTrace failPrim 5 = [] ∧
    runRandomBytes failPrim 5 ≠ Except.error PyError.randomGenerationError ∧
    ∀ bs : Buffer, runRandomBytes failPrim 5 ≠ Except.ok bs :=
  get_random_bytes_no_platform_call failPrim 5 (by decide)

/-- C4, a code bug: get_random_bytes(0) does not succeed with an empty
byte sequence; it raises AttributeError at line 6, for every platform
behaviour. -/
theorem get_random_bytes_zero_attribute_error (prim : PlatformPrim) :
    runRandomBytes prim 0 = Except.error PyError.attributeError ∧
    runRandomBytes prim 0 ≠ Except.ok [] := by
  refine ⟨runRandomBytes_nonneg_eq prim 0 le_rfl, ?_⟩
  rw [runRandomBytes_nonneg_eq prim 0 le_rfl]
  simp

/-- C5, a code bug: the secure-random primitive is never invoked with
any arguments at all — three, in order, or otherwise.  For every
platform behaviour and every non-negative n the trace of platform
invocations is empty, so no single recorded invocation exists. -/
theorem get_random_bytes_no_invocation_arguments (prim : PlatformPrim)
    (n : Int) (hn : 0 ≤ n) :
    callTrace prim n = [] ∧
    ∀ cr : CallRecord, callTrace prim n ≠ [cr] := by
  refine ⟨callTrace_nonneg_eq prim n hn, fun cr => ?_⟩
  rw [callTrace_nonneg_eq prim n hn]
  simp

/-- Witness for the C5 theorem at the test platform with n = 4. -/
theorem get_random_bytes_no_invocation_arguments_witness :
    callTrace okPrim 4 = [] ∧
    ∀ cr : CallRecord, callTrace okPrim 4 ≠ [cr] :=
  get_random_bytes_no_invocation_arguments okPrim 4 (by decide)

/-- C6, a code bug: the n = 8 success output is unreachable.  For every
platform behaviour the program crashes with AttributeError before any
platform interaction and prints no line at all. -/
theorem program_output_attribute_error (prim : PlatformPrim) :
    programOutput prim = Except.error PyError.attributeError ∧
    ∀ s : String, programOutput prim ≠ Except.ok s := by
  have h := runRandomBytes_nonneg_eq prim 8 (by decide)
  refine ⟨?_, fun s => ?_⟩ <;> simp [programOutput, h]

/-- C7, a code bug: the claim's antecedent never obtains, because no
platform call happens and so no status, zero or non-zero, is ever
returned.  For every platform behaviour the trace is empty and the
program terminates abnormally with AttributeError, producing no success
line. -/
theorem program_no_status_no_success_line (prim : PlatformPrim) :
    callTrace prim 8 = [] ∧
    programOutput prim = Except.error PyError.attributeError ∧
    ∀ s : String, programOutput prim ≠ Except.ok s := by
  have h := runRandomBytes_nonneg_eq prim 8 (by decide)
  refine ⟨callTrace_nonneg_eq prim 8 (by decide), ?_, fun s => ?_⟩ <;>
    simp [programOutput, h]

/-- C8, a code bug: one call of get_random_bytes performs zero platform
invocations, not exactly one, for every platform behaviour and every
non-negative n. -/
theorem get_random_bytes_zero_invocations (prim : PlatformPrim) (n : Int)
    (hn : 0 ≤ n) :
    (callTrace prim n).length = 0 ∧ (callTrace prim n).length ≠ 1 := by
  rw [callTrace_nonneg_eq prim n hn]
  exact ⟨rfl, by simp⟩

/-- Witness for the C8 theorem at the test platform with n = 8. -/
theorem get_random_bytes_zero_invocations_witness :
    (callTrace okPrim 8).length = 0 ∧ (callTrace okPrim 8).length ≠ 1 :=
  get_random_bytes_zero_invocations okPrim 8 (by decide)

/-- C9: get_random_bytes leaves every global state unchanged, and its
outcome does not depend on that state: the call has no side effect
beyond its own freshly allocated buffer, on the error paths included. -/
theorem get_random_bytes_no_global_effect {σ : Type} (prim : PlatformPrim)
    (n : Int) (g : σ) :
    (get_random_bytes prim n g).2 = g ∧
    ∀ g₂ : σ, (get_random_bytes prim n g).1 = (get_random_bytes prim n g₂).1 := by
  constructor
  · unfold get_random_bytes
    split <;> rfl
  · intro g₂
    unfold get_random_bytes
    split <;> rfl

/-- C10: for every negative n, get_random_bytes raises the ctypes error
while building the buffer and never invokes the platform primitive. -/
theorem get_random_bytes_negative_input (prim : PlatformPrim) (n : Int)
    (hn : n < 0) :
    runRandomBytes prim n = Except.error PyError.negativeArrayLength ∧
    callTrace prim n = [] := by
  constructor <;> simp [runRandomBytes, callTrace, get_random_bytes, hn]

/-- Witness for C10 at the test platform with n = -1. -/
theorem get_random_bytes_negative_input_witness :
    runRandomBytes okPrim (-1) = Except.error PyError.negativeArrayLength ∧
    callTrace okPrim (-1) = [] :=
  get_random_bytes_negative_input okPrim (-1) (by decide)

end Randomizer
